import Mathlib

/-
Shallow embedding of the syllabus-to-schedule derivation core of the
study-buddy-flow repository (file PARSE_SYLLABUS_FUNCTION_CODE.ts,
serve handler, lines 214-386):

  * day-name resolution through the dayMap object (lines 219-240, 284-288),
  * HH:mm time parsing via String.split(':').map(Number) (lines 253-257),
  * duration computation with midnight rollover and clamping (lines 261-282),
  * the calendar walk that emits one class-meeting block per matching
    date (lines 292-309),
  * the merge of class-meeting blocks with planner-produced assignment
    study blocks (lines 361-386).

Modelling conventions:
  * Calendar dates are represented by their day count since the Unix
    epoch (an Int); the runtime executes with TZ=UTC, so the JS Date
    arithmetic (getDay, toISOString, setDate(+1), <=) coincides with
    plain day-number arithmetic.  daysFromCivil and toISODate implement
    the standard civil-calendar conversions used by the JS runtime.
  * The JS Number() conversion is modelled on trimmed optionally signed
    decimal-integer strings (empty string gives 0, as in JS); fractional,
    hexadecimal and exponent literals are not modelled - no claim
    involves them.  A none result stands for NaN.
  * new Date(string) is modelled for strict "YYYY-MM-DD" input (the
    format the upstream prompt requests); other strings give an invalid
    date (none), which makes the enumeration loop emit nothing, exactly
    as NaN comparisons do in JS.
  * JS truthiness on optional string fields: an absent field or the
    empty string is falsy; an array (even empty) is truthy.
  * All functions are total, mirroring the fact that the translated
    region raises no exception for any individual malformed entry.
-/

/-- One entry per key of the dayMap object literal (source lines 219-240),
in source order.  JS object keys are unique, so an association-list
lookup is a faithful model. -/
def dayPairs : List (String × Nat) :=
  [("Monday", 1), ("Tuesday", 2), ("Wednesday", 3), ("Thursday", 4),
   ("Friday", 5), ("Saturday", 6), ("Sunday", 0),
   ("Mon", 1), ("Tue", 2), ("Wed", 3), ("Thu", 4), ("Fri", 5), ("Sat", 6), ("Sun", 0),
   ("M", 1), ("T", 2), ("W", 3), ("R", 4), ("F", 5), ("S", 6)]

/-- Whitespace trimming on a character list: drop leading and trailing
whitespace, as both String.prototype.trim and Number()'s implicit
whitespace stripping do in JS. -/
def trimChars (cs : List Char) : List Char :=
  ((cs.dropWhile Char.isWhitespace).reverse.dropWhile Char.isWhitespace).reverse

/-- Model of s.trim() (character-list implementation so that concrete
instances evaluate inside the kernel). -/
def jsTrim (s : String) : String :=
  String.mk (trimChars s.data)

/-- Model of s.substring(0, 3): the first three characters, or the whole
string when it is shorter (the inputs here are ASCII, where JS UTF-16
units and characters coincide). -/
def jsTake3 (s : String) : String :=
  String.mk (s.data.take 3)

/-- Property lookup dayMap[s]: some value when s is a key, none (undefined)
otherwise. -/
def dayMapLookup (s : String) : Option Nat :=
  (dayPairs.find? (fun p => p.1 == s)).map (fun p => p.2)

/-- Source lines 285-288: dayMap[day.trim()] ?? dayMap[day.trim().substring(0,3)] ?? null.
The match chain is the nullish-coalescing fallback. -/
def resolveDay (day : String) : Option Nat :=
  let dayName := jsTrim day
  match dayMapLookup dayName with
  | some v => some v
  | none => dayMapLookup (jsTake3 dayName)

/-- Digits-only unsigned decimal parse on a character list; none on the
empty list or any non-digit character. -/
def parseDigitList (cs : List Char) : Option Nat :=
  if cs = [] then none
  else if cs.all (fun c => c.isDigit) then
    some (cs.foldl (fun a c => a * 10 + (c.toNat - 48)) 0)
  else none

/-- Digits-only unsigned decimal parse of a string. -/
def parseNatDigits (s : String) : Option Nat :=
  parseDigitList s.data

/-- JS Number() on the strings this core feeds it: leading/trailing
whitespace is ignored, the empty string converts to 0, an optional sign
followed by decimal digits converts to that integer, anything else is
NaN (none).  Fractional, hexadecimal and exponent literals are not
modelled; no claim involves them. -/
def jsNumber (s : String) : Option Int :=
  match trimChars s.data with
  | [] => some 0
  | '-' :: rest => (parseDigitList rest).map (fun n => -(n : Int))
  | '+' :: rest => (parseDigitList rest).map (fun n => (n : Int))
  | cs => (parseDigitList cs).map (fun n => (n : Int))

/-- Splitting a character list at every occurrence of a separator
character, keeping empty segments, as String.prototype.split does for a
single-character separator. -/
def splitCharsOn (sep : Char) : List Char → List Char → List (List Char)
  | [], acc => [acc.reverse]
  | c :: rest, acc =>
    if c = sep then acc.reverse :: splitCharsOn sep rest []
    else splitCharsOn sep rest (c :: acc)

/-- Model of s.split(sep) for a one-character separator. -/
def jsSplit (s : String) (sep : Char) : List String :=
  (splitCharsOn sep s.data []).map String.mk

/-- Source lines 253-257: const [h, m] = s.split(':').map(Number), with the
subsequent isNaN validation folded in: the result is some (h, m) exactly
when both destructured components are non-NaN numbers.  A missing second
component is undefined, and Number(undefined) is NaN. -/
def parseTime (s : String) : Option (Int × Int) :=
  match (jsSplit s ':').map jsNumber with
  | h :: m :: _ =>
    match h, m with
    | some hv, some mv => some (hv, mv)
    | _, _ => none
  | _ => none

/-- Gregorian leap-year rule, as used by the JS Date object. -/
def isLeap (y : Nat) : Bool :=
  decide ((y % 4 = 0 ∧ ¬ y % 100 = 0) ∨ y % 400 = 0)

/-- Number of days in month m of year y. -/
def daysInMonth (y m : Nat) : Nat :=
  if m = 2 then (if isLeap y then 29 else 28)
  else if m = 4 ∨ m = 6 ∨ m = 9 ∨ m = 11 then 30
  else 31

/-- Days since the Unix epoch of the civil date y-m-d (standard
era-based civil-calendar conversion, the arithmetic a JS Date performs
for UTC dates). -/
def daysFromCivil (y m d : Nat) : Int :=
  let yi : Int := if m ≤ 2 then (y : Int) - 1 else (y : Int)
  let era : Int := Int.ediv yi 400
  let yoe : Nat := (yi - era * 400).toNat
  let mp : Nat := if 2 < m then m - 3 else m + 9
  let doy : Nat := (153 * mp + 2) / 5 + d - 1
  let doe : Nat := yoe * 365 + yoe / 4 - yoe / 100 + doy
  era * 146097 + (doe : Int) - 719468

/-- Model of new Date(s) for the strict ISO "YYYY-MM-DD" format
(4-digit year, 2-digit month and day, a real calendar date), returning
the UTC day number; anything else is an invalid date (none), whose NaN
timestamp makes every subsequent <= comparison false in JS. -/
def parseISODate (s : String) : Option Int :=
  match jsSplit s '-' with
  | [ys, ms, ds] =>
    if ys.data.length = 4 ∧ ms.data.length = 2 ∧ ds.data.length = 2 then
      match parseNatDigits ys, parseNatDigits ms, parseNatDigits ds with
      | some y, some m, some d =>
        if 1 ≤ m ∧ m ≤ 12 ∧ 1 ≤ d ∧ d ≤ daysInMonth y m then
          some (daysFromCivil y m d)
        else none
      | _, _, _ => none
    else none
  | _ => none

/-- The decimal digit character for n mod 10. -/
def digitChar (n : Nat) : Char :=
  Char.ofNat (48 + n % 10)

/-- Two-digit zero-padded decimal rendering (months and days in the
toISOString output; both are always below 100). -/
def padNat2 (n : Nat) : String :=
  String.mk [digitChar (n / 10), digitChar n]

/-- Four-digit zero-padded decimal rendering (years in the toISOString
output; every year this core can produce is below 10000). -/
def padNat4 (n : Nat) : String :=
  String.mk [digitChar (n / 1000), digitChar (n / 100), digitChar (n / 10), digitChar n]

/-- Source line 299: currentDate.toISOString().split('T')[0], i.e. the
"YYYY-MM-DD" rendering of a UTC day number (inverse civil-calendar
conversion; valid for every day number at or after 0000-03-01, far
wider than any date this core produces). -/
def toISODate (z : Int) : String :=
  let n : Nat := (z + 719468).toNat
  let era : Nat := n / 146097
  let doe : Nat := n % 146097
  let yoe : Nat := (doe - doe / 1460 + doe / 36524 - doe / 146096) / 365
  let y : Nat := yoe + era * 400
  let doy : Nat := doe - (365 * yoe + yoe / 4 - yoe / 100)
  let mp : Nat := (5 * doy + 2) / 153
  let d : Nat := doy - (153 * mp + 2) / 5 + 1
  let m : Nat := if mp < 10 then mp + 3 else mp - 9
  let yout : Nat := if m ≤ 2 then y + 1 else y
  padNat4 yout ++ "-" ++ padNat2 m ++ "-" ++ padNat2 d

/-- Source line 296: currentDate.getDay() under TZ=UTC; day 0 of the
epoch (1970-01-01) was a Thursday, and JS numbers Sunday as 0. -/
def dayOfWeek (z : Int) : Nat :=
  ((z + 4).emod 7).toNat

/-- Source lines 261-282: signed difference of the two times in minutes,
one 24-hour rollover when negative, then the MIN_DURATION = 15 and
MAX_DURATION = 240 clamps, in that order. -/
def computeDurationMinutes (sh sm eh em : Int) : Int :=
  let d0 := (eh * 60 + em) - (sh * 60 + sm)
  let d1 := if d0 < 0 then d0 + 24 * 60 else d0
  let d2 := if d1 < 15 then 15 else d1
  if d2 > 4 * 60 then 4 * 60 else d2

/-- The schedule object extracted by the upstream AI call; every field
can be absent in the untrusted JSON.  Source accesses: lines 216,
245-250, 253-254, 285. -/
structure Schedule where
  days : Option (List String)
  startTime : Option String
  endTime : Option String
  startDate : Option String
  endDate : Option String
deriving Repr, DecidableEq

/-- One element pushed onto classMeetingBlocks (source lines 298-303). -/
structure ClassMeeting where
  blockDate : String
  startTime : String
  durationMinutes : Int
  isClassMeeting : Bool
deriving Repr, DecidableEq

/-- One element of the planner-produced assignmentStudyBlocks array
(source lines 329, 378-385); fields are copied from untrusted JSON, the
startTime field may be absent. -/
structure PlannedSession where
  blockDate : String
  startTime : Option String
  durationMinutes : Int
  assignmentIndex : Int
deriving Repr, DecidableEq

/-- One row of insertedAssignments (source lines 196-206): a persisted
assignment record, of which the merge reads only the id. -/
structure InsertedAssignment where
  id : String
deriving Repr, DecidableEq

/-- One row pushed onto allStudyBlocks (source lines 366-373 and
378-385). -/
structure StudyBlockRow where
  user_id : String
  class_id : String
  assignment_id : Option String
  block_date : String
  start_time : Option String
  duration_minutes : Int
deriving Repr, DecidableEq

/-- The body of the while loop of source lines 295-306, unrolled a fixed
number of times: each iteration looks at one date, emits a block when
its weekday is scheduled, and advances one day. -/
def walkBlocksAux (days : List Nat) (st : String) (dur : Int) : Nat → Int → List ClassMeeting
  | 0, _ => []
  | n + 1, cur =>
    (if dayOfWeek cur ∈ days then [⟨toISODate cur, st, dur, true⟩] else [])
      ++ walkBlocksAux days st dur n (cur + 1)

/-- Source lines 294-306: the walk from startDate to endDate inclusive;
the loop body runs exactly max (e + 1 - s) 0 times. -/
def walkBlocks (days : List Nat) (st : String) (dur : Int) (s e : Int) : List ClassMeeting :=
  walkBlocksAux days st dur (e + 1 - s).toNat s

/-- Source lines 215-311: the whole class-meeting generation step.
currentYear models today.getFullYear(), used only for the defaulted
date range (lines 243-250).  Each early [] mirrors a source path on
which classMeetingBlocks stays empty: absent schedule or fields
(line 216, JS truthiness), NaN time components (lines 257-259), an
empty resolved day list (line 290), or an invalid/unordered date range
(the while condition at line 295 never holding). -/
def generateClassMeetings (currentYear : Nat) (schedule : Option Schedule) : List ClassMeeting :=
  match schedule with
  | none => []
  | some sch =>
    match sch.days, sch.startTime, sch.endTime with
    | some ds, some st, some et =>
      if st = "" ∨ et = "" then []
      else
        let startNum : Option Int :=
          match sch.startDate with
          | none => some (daysFromCivil currentYear 1 15)
          | some sd => if sd = "" then some (daysFromCivil currentYear 1 15) else parseISODate sd
        let endNum : Option Int :=
          match sch.endDate with
          | none => some (daysFromCivil currentYear 5 15)
          | some ed => if ed = "" then some (daysFromCivil currentYear 5 15) else parseISODate ed
        match parseTime st, parseTime et with
        | some (sh, sm), some (eh, em) =>
          let dur := computeDurationMinutes sh sm eh em
          let scheduleDays := ds.filterMap resolveDay
          if scheduleDays = [] then []
          else
            match startNum, endNum with
            | some s, some e => walkBlocks scheduleDays st dur s e
            | _, _ => []
        | _, _ => []
    | _, _, _ => []

/-- Source line 381: insertedAssignments[block.assignmentIndex]?.id || null.
A negative or out-of-range index reads undefined, ?.id keeps undefined,
and || null converts every falsy value (undefined, but also an empty
id string) to null. -/
def jsIdLookup (ras : List InsertedAssignment) (idx : Int) : Option String :=
  if 0 ≤ idx then
    match ras.get? idx.toNat with
    | some a => if a.id = "" then none else some a.id
    | none => none
  else none

/-- Source lines 361-386: allStudyBlocks assembly.  Class-meeting blocks
are appended first (guarded by classMeetingBlocks.length > 0), then the
planner blocks (guarded by both arrays being non-empty); each push maps
one input element to one output row. -/
def mergeBlocks (cms : List ClassMeeting) (pss : List PlannedSession)
    (ras : List InsertedAssignment) (userId classId : String) : List StudyBlockRow :=
  (if 0 < cms.length then
    cms.map (fun b =>
      { user_id := userId, class_id := classId, assignment_id := none,
        block_date := b.blockDate, start_time := some b.startTime,
        duration_minutes := b.durationMinutes })
  else [])
  ++
  (if 0 < pss.length ∧ 0 < ras.length then
    pss.map (fun s =>
      { user_id := userId, class_id := classId,
        assignment_id := jsIdLookup ras s.assignmentIndex,
        block_date := s.blockDate, start_time := s.startTime,
        duration_minutes := s.durationMinutes })
  else [])

/-- The inclusive list of day numbers from s to e, written directly as a
mapped range (the specification-side description of the calendar walk). -/
def dateRange (s e : Int) : List Int :=
  (List.range (e + 1 - s).toNat).map (fun i : Nat => s + (i : Int))

/-- The unusable-schedule predicate of the specification's error
taxonomy, over the embedded data: schedule absent, a required field
absent or empty (falsy), a time string whose components do not both
convert to numbers, or no valid day token. -/
def scheduleUnusable : Option Schedule → Bool
  | none => true
  | some sch =>
    match sch.days, sch.startTime, sch.endTime with
    | none, _, _ => true
    | _, none, _ => true
    | _, _, none => true
    | some ds, some st, some et =>
      st == "" || et == "" || (parseTime st).isNone || (parseTime et).isNone
        || (ds.filterMap resolveDay).isEmpty

/-- Duration clamping always lands in the closed interval [15, 240],
whatever the parsed time components were. -/
theorem computeDurationMinutes_bounds (sh sm eh em : Int) :
    15 ≤ computeDurationMinutes sh sm eh em ∧ computeDurationMinutes sh sm eh em ≤ 240 := by
  simp only [computeDurationMinutes]
  split_ifs <;> omega

/-- Every block the calendar walk emits carries the duration the walk
was given. -/
theorem walkBlocksAux_duration (days : List Nat) (st : String) (dur : Int) :
    ∀ (n : Nat) (cur : Int) (b : ClassMeeting),
      b ∈ walkBlocksAux days st dur n cur → b.durationMinutes = dur := by
  intro n
  induction n with
  | zero =>
    intro cur b hb
    simp [walkBlocksAux] at hb
  | succ n ih =>
    intro cur b hb
    simp only [walkBlocksAux, List.mem_append] at hb
    rcases hb with hb | hb
    · by_cases h : dayOfWeek cur ∈ days
      · rw [if_pos h] at hb
        simp only [List.mem_singleton] at hb
        subst hb
        rfl
      · rw [if_neg h] at hb
        simp at hb
    · exact ih (cur + 1) b hb

/-- The calendar walk is the filter of the mapped index range: it emits
exactly one block per starting offset whose date has a scheduled
weekday, in walk order. -/
theorem walkBlocksAux_eq (days : List Nat) (st : String) (dur : Int) :
    ∀ (n : Nat) (cur : Int),
      walkBlocksAux days st dur n cur =
        (((List.range n).map (fun i : Nat => cur + (i : Int))).filter
            (fun d => decide (dayOfWeek d ∈ days))).map
          (fun d => ⟨toISODate d, st, dur, true⟩) := by
  intro n
  induction n with
  | zero =>
    intro cur
    rfl
  | succ n ih =>
    intro cur
    have hfun : ((List.range n).map Nat.succ).map (fun i : Nat => cur + (i : Int))
        = (List.range n).map (fun i : Nat => (cur + 1) + (i : Int)) := by
      rw [List.map_map]
      have hf : ((fun i : Nat => cur + (i : Int)) ∘ Nat.succ)
          = (fun i : Nat => (cur + 1) + (i : Int)) := by
        funext i
        simp only [Function.comp]
        push_cast
        ring
      rw [hf]
    simp only [walkBlocksAux]
    rw [ih (cur + 1), List.range_succ_eq_map, List.map_cons, hfun, List.filter_cons]
    by_cases h : dayOfWeek cur ∈ days <;> simp [h]

/-- Membership in the inclusive day-number range. -/
theorem mem_dateRange (s e d : Int) : d ∈ dateRange s e ↔ (s ≤ d ∧ d ≤ e) := by
  unfold dateRange
  simp only [List.mem_map, List.mem_range]
  constructor
  · rintro ⟨i, hi, rfl⟩
    omega
  · rintro ⟨h1, h2⟩
    exact ⟨(d - s).toNat, by omega, by omega⟩

/-- The inclusive day-number range is strictly increasing. -/
theorem dateRange_pairwise (s e : Int) : List.Pairwise (· < ·) (dateRange s e) := by
  unfold dateRange
  exact List.Pairwise.map _ (fun a b h => by omega) (List.pairwise_lt_range _)

/-- The merge always contributes the class-meeting rows first, with the
emptiness guard on classMeetingBlocks being observationally redundant. -/
theorem mergeBlocks_def_eq (cms : List ClassMeeting) (pss : List PlannedSession)
    (ras : List InsertedAssignment) (u c : String) :
    mergeBlocks cms pss ras u c =
      cms.map (fun b =>
        { user_id := u, class_id := c, assignment_id := none,
          block_date := b.blockDate, start_time := some b.startTime,
          duration_minutes := b.durationMinutes })
      ++ (if 0 < pss.length ∧ 0 < ras.length then
            pss.map (fun sb =>
              { user_id := u, class_id := c,
                assignment_id := jsIdLookup ras sb.assignmentIndex,
                block_date := sb.blockDate, start_time := sb.startTime,
                duration_minutes := sb.durationMinutes })
          else []) := by
  unfold mergeBlocks
  cases cms with
  | nil => simp
  | cons a l => simp

/-- A negative or out-of-range planner index resolves to a null
assignment link. -/
theorem jsIdLookup_oob (ras : List InsertedAssignment) (idx : Int)
    (h : idx < 0 ∨ (ras.length : Int) ≤ idx) : jsIdLookup ras idx = none := by
  unfold jsIdLookup
  rcases h with h | h
  · rw [if_neg (by omega)]
  · rw [if_pos (by omega), List.get?_eq_none.mpr (by omega)]

/-- A dayMap lookup succeeds exactly on the keys of the map. -/
theorem dayMapLookup_isSome_iff (s : String) :
    (dayMapLookup s).isSome = true ↔ s ∈ dayPairs.map (fun p => p.1) := by
  unfold dayMapLookup
  have hmap : ∀ o : Option (String × Nat), (o.map (fun p => p.2)).isSome = o.isSome := by
    intro o
    cases o <;> rfl
  rw [hmap, List.find?_isSome]
  simp [List.mem_map, beq_iff_eq]

/-- A successful dayMap lookup returns the value stored with that key. -/
theorem dayMapLookup_eq_some_mem (s : String) (v : Nat)
    (h : dayMapLookup s = some v) : (s, v) ∈ dayPairs := by
  unfold dayMapLookup at h
  cases hf : dayPairs.find? (fun p => p.1 == s) with
  | none =>
    rw [hf] at h
    simp at h
  | some a =>
    rw [hf] at h
    simp only [Option.map_some'] at h
    injection h with h2
    have hm := List.mem_of_find?_eq_some hf
    have he : a.1 = s := by
      have := List.find?_some hf
      simpa [beq_iff_eq] using this
    have ha : a = (s, v) := by
      cases a
      simp only at h2 he
      rw [he, h2]
    rw [← ha]
    exact hm

/-- When a key resolves through dayMap and every key sharing a given
three-character form stores the same value, any token whose trimmed form
starts with those three characters resolves to that value. -/
theorem resolveDay_take3_eq (k : String) (v : Nat)
    (hk : dayMapLookup k = some v)
    (hall : ∀ p ∈ dayPairs, jsTake3 p.1 = k → p.2 = v) :
    ∀ t : String, jsTake3 (jsTrim t) = k → resolveDay t = some v := by
  intro t h3
  simp only [resolveDay]
  cases h1 : dayMapLookup (jsTrim t) with
  | none =>
    simp only [h1, h3, hk]
  | some w =>
    have hmem := dayMapLookup_eq_some_mem _ _ h1
    have hw : w = v := hall ((jsTrim t), w) hmem (by simpa using h3)
    simp only [h1, hw]

/-- A day token is accepted exactly when its trimmed form, or the first
three characters of its trimmed form, is a key of the day mapping. -/
theorem resolveDay_isSome_iff (t : String) :
    (resolveDay t).isSome = true ↔
      (jsTrim t ∈ dayPairs.map (fun p => p.1)
        ∨ jsTake3 (jsTrim t) ∈ dayPairs.map (fun p => p.1)) := by
  simp only [resolveDay]
  cases h1 : dayMapLookup (jsTrim t) with
  | some w =>
    simp only [Option.isSome_some, true_iff]
    left
    exact (dayMapLookup_isSome_iff _).mp (by rw [h1]; rfl)
  | none =>
    cases h2 : dayMapLookup (jsTake3 (jsTrim t)) with
    | some w =>
      simp only [h2, Option.isSome_some, true_iff]
      right
      exact (dayMapLookup_isSome_iff _).mp (by rw [h2]; rfl)
    | none =>
      simp only [h2, Option.isSome_none, Bool.false_eq_true, false_iff]
      intro hcon
      rcases hcon with ha | hb
      · have := (dayMapLookup_isSome_iff _).mpr ha
        rw [h1] at this
        exact absurd this (by simp)
      · have := (dayMapLookup_isSome_iff _).mpr hb
        rw [h2] at this
        exact absurd this (by simp)

/-- C1 counterexample: a planned session with a perfectly ordinary
assignmentIndex is dropped outright (not emitted with a null link) when
the resolved-assignment list is empty, because the merge guard requires
insertedAssignments.length > 0. -/
theorem c1_counterexample :
    mergeBlocks [] [⟨"2025-03-02", some "18:00", 45, 0⟩] [] "u" "c" = [] := by decide

/-- C1 (amended): when the resolved-assignment list is non-empty, every
planned session whose assignmentIndex is negative or at least the list
length is still emitted, at its input position after the class-meeting
rows, with a null assignment link; sessions are dropped only when the
resolved-assignment list is empty, in which case all of them are. -/
theorem c1_amended_oob_emitted (cms : List ClassMeeting) (pss : List PlannedSession)
    (ras : List InsertedAssignment) (u c : String)
    (hras : ras ≠ []) (i : Nat) (hi : i < pss.length)
    (hoob : pss[i].assignmentIndex < 0 ∨ (ras.length : Int) ≤ pss[i].assignmentIndex) :
    (mergeBlocks cms pss ras u c)[cms.length + i]? =
      some { user_id := u, class_id := c, assignment_id := none,
             block_date := pss[i].blockDate, start_time := pss[i].startTime,
             duration_minutes := pss[i].durationMinutes } := by
  have hlook : jsIdLookup ras (pss[i].assignmentIndex) = none := jsIdLookup_oob _ _ hoob
  rw [mergeBlocks_def_eq]
  rw [if_pos ⟨by omega, List.length_pos.mpr hras⟩]
  rw [List.getElem?_append_right (by simp only [List.length_map]; omega)]
  simp only [List.length_map]
  have hidx : cms.length + i - cms.length = i := by omega
  rw [hidx, List.getElem?_map, List.getElem?_eq_getElem hi]
  simp [hlook]

/-- C1 witness: apply the amended statement at a concrete merge with one
out-of-range session and one resolved assignment. -/
theorem c1_amended_oob_emitted_witness :
    (mergeBlocks [] [⟨"2025-03-05", some "17:00", 40, 5⟩] [⟨"a9"⟩] "u" "c")[0]? =
      some ⟨"u", "c", none, "2025-03-05", some "17:00", 40⟩ :=
  c1_amended_oob_emitted [] [⟨"2025-03-05", some "17:00", 40, 5⟩] [⟨"a9"⟩] "u" "c"
    (by decide) 0 (by decide) (Or.inr (by decide))

/-- C2 counterexample: a planner session with durationMinutes = 500 is
copied into the merged output verbatim, so the merged output is not
confined to [15, 240]. -/
theorem c2_counterexample :
    mergeBlocks [] [⟨"2025-03-01", some "18:00", 500, 0⟩] [⟨"a1"⟩] "u" "c"
      = [⟨"u", "c", some "a1", "2025-03-01", some "18:00", 500⟩]
    ∧ ¬ ((500 : Int) ≤ 240) := by decide

/-- C2 (amended): every class-meeting block the generator emits has a
durationMinutes inside the closed interval [15, 240]; only the
planner-produced assignment sessions escape the clamp. -/
theorem c2_amended_class_meeting_bounds (cy : Nat) (o : Option Schedule) (b : ClassMeeting)
    (hb : b ∈ generateClassMeetings cy o) :
    15 ≤ b.durationMinutes ∧ b.durationMinutes ≤ 240 := by
  cases o with
  | none => simp [generateClassMeetings] at hb
  | some sch =>
    simp only [generateClassMeetings] at hb
    repeat' split at hb
    all_goals try exact absurd hb (List.not_mem_nil _)
    simp only [walkBlocks] at hb
    rw [walkBlocksAux_duration _ _ _ _ _ _ hb]
    exact computeDurationMinutes_bounds _ _ _ _

/-- C2 witness: the bound instantiated on a block of the concrete
Monday/Wednesday generation run. -/
theorem c2_amended_class_meeting_bounds_witness :
    15 ≤ (⟨"2025-01-13", "10:00", 60, true⟩ : ClassMeeting).durationMinutes
    ∧ (⟨"2025-01-13", "10:00", 60, true⟩ : ClassMeeting).durationMinutes ≤ 240 :=
  c2_amended_class_meeting_bounds 2025
    (some ⟨some ["Monday", "Wednesday"], some "10:00", some "11:00",
      some "2025-01-13", some "2025-01-24"⟩)
    ⟨"2025-01-13", "10:00", 60, true⟩ (by decide)

/-- C3 counterexample: one planned session whose date parses perfectly,
merged against an empty resolved-assignment list, yields zero output
rows, while the claim predicts 0 class meetings + 1 session - 0 dropped
= 1 row. -/
theorem c3_counterexample :
    (parseISODate "2025-03-03").isSome = true
    ∧ (mergeBlocks [] [⟨"2025-03-03", some "10:00", 30, 2⟩] [] "u" "c").length = 0 := by decide

/-- C3 (amended): the merge output length is the number of class
meetings plus, when the resolved-assignment list is non-empty, the
number of planned sessions (and plus nothing when it is empty); the
merge parses no dates and, being a total function, never raises for a
malformed individual entry. -/
theorem c3_amended_merge_length (cms : List ClassMeeting) (pss : List PlannedSession)
    (ras : List InsertedAssignment) (u c : String) :
    (mergeBlocks cms pss ras u c).length =
      cms.length + (if ras = [] then 0 else pss.length) := by
  rw [mergeBlocks_def_eq, List.length_append, List.length_map]
  congr 1
  by_cases hr : ras = []
  · simp [hr]
  · cases pss with
    | nil => simp [hr]
    | cons p ps => simp [hr, List.length_pos.mpr hr]

/-- C4: for parsed start/end time components, the class-meeting duration
is the minute difference, with 1440 minutes added when the difference is
negative (midnight rollover), then raised to 15 when below 15 and capped
at 240 when above 240. -/
theorem c4_duration_rule (sStr eStr : String) (sh sm eh em : Int)
    (_hs : parseTime sStr = some (sh, sm)) (_he : parseTime eStr = some (eh, em)) :
    computeDurationMinutes sh sm eh em =
      min 240 (max 15
        (if (eh * 60 + em) - (sh * 60 + sm) < 0
          then (eh * 60 + em) - (sh * 60 + sm) + 1440
          else (eh * 60 + em) - (sh * 60 + sm))) := by
  simp only [computeDurationMinutes, min_def, max_def]
  split_ifs <;> omega

/-- C4 witness: the midnight-rollover scenario 23:30 to 00:30 satisfies
the rule and yields 60 minutes. -/
theorem c4_duration_rule_witness :
    computeDurationMinutes 23 30 0 30 =
      min 240 (max 15
        (if (0 * 60 + 30) - (23 * 60 + 30) < (0 : Int)
          then (0 * 60 + 30) - (23 * 60 + 30) + 1440
          else (0 * 60 + 30) - (23 * 60 + 30)))
    ∧ computeDurationMinutes 23 30 0 30 = 60 :=
  ⟨c4_duration_rule "23:30" "00:30" 23 30 0 30 (by decide) (by decide), by decide⟩

/-- C5: for a valid weekly schedule (all fields present and non-empty,
both times parsing, both dates parsing, a non-empty resolved day set,
startDate at most endDate) the generator output is exactly one block per
date of the inclusive range whose weekday is scheduled, carried in
strictly ascending date order, and the generator is a pure function of
its inputs. -/
theorem c5_generator_enumeration
    (cy : Nat) (sch : Schedule) (ds : List String) (st et sd ed : String)
    (s e sh sm eh em : Int)
    (hds : sch.days = some ds)
    (hst : sch.startTime = some st) (het : sch.endTime = some et)
    (hstne : st ≠ "") (hetne : et ≠ "")
    (hsd : sch.startDate = some sd) (hed : sch.endDate = some ed)
    (hsdne : sd ≠ "") (hedne : ed ≠ "")
    (hS : parseISODate sd = some s) (hE : parseISODate ed = some e)
    (hpt : parseTime st = some (sh, sm)) (hpe : parseTime et = some (eh, em))
    (hdays : ds.filterMap resolveDay ≠ [])
    (_hrange : s ≤ e) :
    generateClassMeetings cy (some sch) =
        ((dateRange s e).filter
            (fun d => decide (dayOfWeek d ∈ ds.filterMap resolveDay))).map
          (fun d => ⟨toISODate d, st, computeDurationMinutes sh sm eh em, true⟩)
      ∧ List.Pairwise (· < ·)
          ((dateRange s e).filter
            (fun d => decide (dayOfWeek d ∈ ds.filterMap resolveDay)))
      ∧ (∀ d : Int,
          d ∈ (dateRange s e).filter
              (fun d => decide (dayOfWeek d ∈ ds.filterMap resolveDay))
            ↔ s ≤ d ∧ d ≤ e ∧ dayOfWeek d ∈ ds.filterMap resolveDay)
      ∧ generateClassMeetings cy (some sch) = generateClassMeetings cy (some sch) := by
  refine ⟨?_, List.Pairwise.filter _ (dateRange_pairwise s e), ?_, rfl⟩
  · simp only [generateClassMeetings, hds, hst, het, hsd, hed, hpt, hpe]
    rw [if_neg (by push_neg; exact ⟨hstne, hetne⟩)]
    rw [if_neg hsdne, if_neg hedne]
    simp only [hS, hE]
    rw [if_neg hdays]
    simp only [walkBlocks, dateRange]
    exact walkBlocksAux_eq (ds.filterMap resolveDay) st
      (computeDurationMinutes sh sm eh em) (e + 1 - s).toNat s
  · intro d
    rw [List.mem_filter, mem_dateRange]
    simp only [decide_eq_true_eq]
    rw [and_assoc]

/-- C5 witness: the enumeration equality instantiated on the concrete
Monday/Wednesday schedule over 2025-01-13 .. 2025-01-24. -/
theorem c5_generator_enumeration_witness :
    generateClassMeetings 2025
        (some ⟨some ["Monday", "Wednesday"], some "10:00", some "11:00",
          some "2025-01-13", some "2025-01-24"⟩) =
      ((dateRange 20101 20112).filter
          (fun d => decide (dayOfWeek d ∈ (["Monday", "Wednesday"].filterMap resolveDay)))).map
        (fun d => ⟨toISODate d, "10:00", computeDurationMinutes 10 0 11 0, true⟩) :=
  (c5_generator_enumeration 2025
    ⟨some ["Monday", "Wednesday"], some "10:00", some "11:00",
      some "2025-01-13", some "2025-01-24"⟩
    ["Monday", "Wednesday"] "10:00" "11:00" "2025-01-13" "2025-01-24"
    20101 20112 10 0 11 0
    rfl rfl rfl (by decide) (by decide) rfl rfl (by decide) (by decide)
    (by decide) (by decide) (by decide) (by decide) (by decide) (by decide)).1

/-- C6: the concrete scenario Monday/Wednesday, 10:00-11:00, over
2025-01-13 .. 2025-01-24, produces exactly the four dated blocks
2025-01-13, 2025-01-15, 2025-01-20, 2025-01-22, each of 60 minutes. -/
theorem c6_concrete_scenario :
    generateClassMeetings 2025
        (some ⟨some ["Monday", "Wednesday"], some "10:00", some "11:00",
          some "2025-01-13", some "2025-01-24"⟩) =
      [⟨"2025-01-13", "10:00", 60, true⟩, ⟨"2025-01-15", "10:00", 60, true⟩,
       ⟨"2025-01-20", "10:00", 60, true⟩, ⟨"2025-01-22", "10:00", 60, true⟩] := by decide

/-- C7 counterexample: the time string "-1:00" does not consist of two
non-negative integers (its hour converts to -1), yet the generator
accepts it (only NaN is rejected) and emits a non-empty sequence. -/
theorem c7_counterexample :
    parseTime "-1:00" = some (-1, 0)
    ∧ generateClassMeetings 2025
        (some ⟨some ["Monday"], some "-1:00", some "10:00",
          some "2025-01-13", some "2025-01-13"⟩)
      = [⟨"2025-01-13", "-1:00", 240, true⟩] := by decide

/-- C7 (amended): the generator returns the empty sequence (and, being a
total function, never raises) whenever the schedule is unusable: the
schedule is absent, any of days/startTime/endTime is absent or an empty
string, either time string has a component that does not convert to a
number (NaN), or no valid day token remains after resolution. -/
theorem c7_amended_unusable_empty (cy : Nat) (o : Option Schedule)
    (h : scheduleUnusable o = true) : generateClassMeetings cy o = [] := by
  cases o with
  | none => rfl
  | some sch =>
    cases hd : sch.days with
    | none => simp [generateClassMeetings, hd]
    | some ds =>
      cases hst : sch.startTime with
      | none => simp [generateClassMeetings, hd, hst]
      | some st =>
        cases het : sch.endTime with
        | none => simp [generateClassMeetings, hd, hst, het]
        | some et =>
          simp only [scheduleUnusable, hd, hst, het, Bool.or_eq_true, beq_iff_eq,
            Option.isNone_iff_eq_none, List.isEmpty_iff] at h
          simp only [generateClassMeetings, hd, hst, het]
          rcases h with ((((h | h) | h) | h) | h)
          · simp [h]
          · simp [h]
          · split
            · rfl
            · simp [h]
          · split
            · rfl
            · split <;> simp_all
          · split
            · rfl
            · split <;> rfl

/-- C7 witness: the amended statement applied to a schedule whose only
day token is unknown. -/
theorem c7_amended_unusable_empty_witness :
    scheduleUnusable (some ⟨some ["Funday"], some "10:00", some "11:00", none, none⟩) = true
    ∧ generateClassMeetings 2026
        (some ⟨some ["Funday"], some "10:00", some "11:00", none, none⟩) = [] :=
  ⟨by decide,
   c7_amended_unusable_empty 2026
     (some ⟨some ["Funday"], some "10:00", some "11:00", none, none⟩) (by decide)⟩

/-- C8 counterexample: the token "Mondays" is none of the forms listed
by the claim (it is not a key of the day mapping), yet it is not
dropped: it resolves to Monday through the three-character fallback. -/
theorem c8_counterexample :
    "Mondays" ∉ dayPairs.map (fun p => p.1) ∧ resolveDay "Mondays" = some 1 := by decide

/-- C8 (amended): full names, three-letter abbreviations and the single
letters resolve as listed, with "S" resolving to Saturday, and a token
is accepted exactly when its trimmed form or the first three characters
of its trimmed form is a key of the day mapping; only tokens matching
neither way are dropped. -/
theorem c8_amended_day_mapping :
    (∀ t : String, (resolveDay t).isSome = true ↔
        (jsTrim t ∈ dayPairs.map (fun p => p.1)
          ∨ jsTake3 (jsTrim t) ∈ dayPairs.map (fun p => p.1)))
    ∧ (resolveDay "Monday" = some 1 ∧ resolveDay "Tuesday" = some 2
      ∧ resolveDay "Wednesday" = some 3 ∧ resolveDay "Thursday" = some 4
      ∧ resolveDay "Friday" = some 5 ∧ resolveDay "Saturday" = some 6
      ∧ resolveDay "Sunday" = some 0
      ∧ resolveDay "Mon" = some 1 ∧ resolveDay "Tue" = some 2
      ∧ resolveDay "Wed" = some 3 ∧ resolveDay "Thu" = some 4
      ∧ resolveDay "Fri" = some 5 ∧ resolveDay "Sat" = some 6
      ∧ resolveDay "Sun" = some 0
      ∧ resolveDay "M" = some 1 ∧ resolveDay "T" = some 2
      ∧ resolveDay "W" = some 3 ∧ resolveDay "R" = some 4
      ∧ resolveDay "F" = some 5 ∧ resolveDay "S" = some 6) :=
  ⟨fun t => resolveDay_isSome_iff t, by decide⟩

/-- C9 counterexample: with one class meeting, one planned session and
an empty resolved-assignment list, the merge output is only the meeting
row, not the concatenation of the meeting row with the session row. -/
theorem c9_counterexample :
    mergeBlocks [⟨"2025-01-13", "10:00", 60, true⟩]
        [⟨"2025-03-04", some "19:00", 50, 0⟩] [] "u" "c"
      = [⟨"u", "c", none, "2025-01-13", some "10:00", 60⟩] := by decide

/-- C9 (amended): whenever the planned-session list is empty or the
resolved-assignment list is non-empty, the merge output is exactly the
class meetings in their generated order, copied unchanged in date, time
and duration with userId/classId attached and a null assignment link,
followed by the planned sessions in input order; the merge neither
re-sorts nor deduplicates. -/
theorem c9_amended_concatenation (cms : List ClassMeeting) (pss : List PlannedSession)
    (ras : List InsertedAssignment) (u c : String)
    (h : pss = [] ∨ ras ≠ []) :
    mergeBlocks cms pss ras u c =
      cms.map (fun b =>
        { user_id := u, class_id := c, assignment_id := none,
          block_date := b.blockDate, start_time := some b.startTime,
          duration_minutes := b.durationMinutes })
      ++ pss.map (fun sb =>
        { user_id := u, class_id := c,
          assignment_id := jsIdLookup ras sb.assignmentIndex,
          block_date := sb.blockDate, start_time := sb.startTime,
          duration_minutes := sb.durationMinutes }) := by
  rw [mergeBlocks_def_eq]
  rcases h with h | h
  · subst h
    simp
  · cases pss with
    | nil => simp
    | cons p ps =>
      rw [if_pos ⟨by simp, List.length_pos.mpr h⟩]

/-- C9 witness: the concatenation shape at a concrete merge of one
meeting and one resolvable session. -/
theorem c9_amended_concatenation_witness :
    mergeBlocks [⟨"2025-01-15", "10:00", 60, true⟩]
        [⟨"2025-03-06", some "16:00", 35, 0⟩] [⟨"a2"⟩] "u" "c" =
      [⟨"u", "c", none, "2025-01-15", some "10:00", 60⟩,
       ⟨"u", "c", some "a2", "2025-03-06", some "16:00", 35⟩] :=
  (c9_amended_concatenation [⟨"2025-01-15", "10:00", 60, true⟩]
    [⟨"2025-03-06", some "16:00", 35, 0⟩] [⟨"a2"⟩] "u" "c"
    (Or.inr (by decide))).trans (by decide)

/-- C10: day-token matching trims surrounding whitespace, is
case-sensitive, and accepts a token exactly when its trimmed form or the
first three characters of its trimmed form is a key of the day mapping;
in particular every token whose trimmed form starts with Mon, Tue, Wed,
Thu, Fri, Sat or Sun resolves to that weekday, while "monday" is
dropped. -/
theorem c10_prefix_token_matching :
    (∀ t : String, (resolveDay t).isSome = true ↔
        (jsTrim t ∈ dayPairs.map (fun p => p.1)
          ∨ jsTake3 (jsTrim t) ∈ dayPairs.map (fun p => p.1)))
    ∧ (∀ t : String, jsTake3 (jsTrim t) = "Mon" → resolveDay t = some 1)
    ∧ (∀ t : String, jsTake3 (jsTrim t) = "Tue" → resolveDay t = some 2)
    ∧ (∀ t : String, jsTake3 (jsTrim t) = "Wed" → resolveDay t = some 3)
    ∧ (∀ t : String, jsTake3 (jsTrim t) = "Thu" → resolveDay t = some 4)
    ∧ (∀ t : String, jsTake3 (jsTrim t) = "Fri" → resolveDay t = some 5)
    ∧ (∀ t : String, jsTake3 (jsTrim t) = "Sat" → resolveDay t = some 6)
    ∧ (∀ t : String, jsTake3 (jsTrim t) = "Sun" → resolveDay t = some 0)
    ∧ resolveDay " Monday " = some 1
    ∧ resolveDay "monday" = none :=
  ⟨fun t => resolveDay_isSome_iff t,
   resolveDay_take3_eq "Mon" 1 (by decide) (by decide),
   resolveDay_take3_eq "Tue" 2 (by decide) (by decide),
   resolveDay_take3_eq "Wed" 3 (by decide) (by decide),
   resolveDay_take3_eq "Thu" 4 (by decide) (by decide),
   resolveDay_take3_eq "Fri" 5 (by decide) (by decide),
   resolveDay_take3_eq "Sat" 6 (by decide) (by decide),
   resolveDay_take3_eq "Sun" 0 (by decide) (by decide),
   by decide, by decide⟩

/-- C10 witness: the prefix rule applied to the concrete token
"Wednesdays". -/
theorem c10_prefix_token_matching_witness :
    resolveDay "Wednesdays" = some 3 :=
  c10_prefix_token_matching.2.2.2.1 "Wednesdays" (by decide)
